import Mathlib

/-!
Verification development for `src/include/andres/ilp/gurobi-callback.hxx`
(namespace `andres::ilp`), a callback-driven interface to the Gurobi MIP
solver.  The C++ doubles are modelled as exact values of type `Flt`
(a rational together with the two signed IEEE infinities); the Gurobi
sentinel `GRB_INFINITY = 1e100` is the finite value `gurobiInfinity`.
Stateful C++ code is embedded as explicit state passing; fallible code
returns `Except Err`.
-/

namespace GurobiIlp

/-- Model of a C++ `double` restricted to the values this code manipulates:
a finite rational, or a signed IEEE infinity
(`std::numeric_limits<double>::infinity()` and its negation). -/
inductive Flt where
  | negInf : Flt
  | fin : ℚ → Flt
  | posInf : Flt
deriving DecidableEq

/-- The Gurobi sentinel `GRB_INFINITY`, defined as `1e100` in `gurobi_c.h`:
a large but finite double, distinct from IEEE infinity. -/
def gurobiInfinity : ℚ := 10 ^ 100

/-- The `<` comparison on modelled doubles (total on the values of `Flt`;
no NaN arises in this development). -/
def Flt.lt : Flt → Flt → Bool
  | Flt.negInf, Flt.fin _ => true
  | Flt.negInf, Flt.posInf => true
  | Flt.fin q, Flt.fin r => decide (q < r)
  | Flt.fin _, Flt.posInf => true
  | _, _ => false

/-- Error universe for the embedding.  `grbException` models Gurobi's
`GRBException` (error code and message); `runtimeError` models
`std::runtime_error`; `otherError` models any other C++ exception a user
routine may raise.  `stateError` and `configurationError` are the wrapper
error categories named by the specification; the source under `src/` never
raises them, and they are present only so that claims mentioning them are
statable.  `undefinedBehavior` marks an out-of-bounds array access in the
source (C++ undefined behavior). -/
inductive Err where
  | grbException : Int → String → Err
  | runtimeError : String → Err
  | otherError : String → Err
  | stateError : Err
  | configurationError : Err
  | undefinedBehavior : Err
deriving DecidableEq

/-- State held by `Gurobi::Callback` (`gurobi-callback.hxx`, lines 99-103):
`objectiveBest_` initialised to `+infinity`, `objectiveBound_` to
`-infinity`, `feasibleHeuristic_` to `false`, `runtime_` to `0`. -/
structure CBState where
  objectiveBest : Flt
  objectiveBound : Flt
  feasibleHeuristic : Bool
  runtime : ℚ
deriving DecidableEq

/-- The initial `Callback` state, from the member initialisers. -/
def initialCBState : CBState :=
  { objectiveBest := Flt.posInf
    objectiveBound := Flt.negInf
    feasibleHeuristic := false
    runtime := 0 }

/-- The `where` codes dispatched to `Callback::callback`, with the data the
code reads in each branch.  `mip` is `GRB_CB_MIP` carrying the values
`getDoubleInfo(GRB_CB_MIP_OBJBST)` and `getDoubleInfo(GRB_CB_MIP_OBJBND)`;
`mipsol` is `GRB_CB_MIPSOL`; `mipnode` is `GRB_CB_MIPNODE`; `other` stands
for any other Gurobi callback site (e.g. `GRB_CB_POLLING`), on which the
body of `callback()` does nothing. -/
inductive Where where
  | mip : Flt → Flt → Where
  | mipsol : Where
  | mipnode : Where
  | other : Where
deriving DecidableEq

/-- Whether a dispatch is a `GRB_CB_MIPNODE` dispatch. -/
def Where.isMipnode : Where → Bool
  | Where.mipnode => true
  | _ => false

/-- Whether a dispatch is a `GRB_CB_MIPSOL` dispatch. -/
def Where.isMipsol : Where → Bool
  | Where.mipsol => true
  | _ => false

/-- The translation applied to `objectiveBest_` in the `GRB_CB_MIP` branch:
`if(objectiveBest_ == GRB_INFINITY) objectiveBest_ = +infinity` (line 37). -/
def translateObjectiveBest (v : Flt) : Flt :=
  if v = Flt.fin gurobiInfinity then Flt.posInf else v

/-- The translation applied to `objectiveBound_` in the `GRB_CB_MIP` branch:
`if(objectiveBound_ == -GRB_INFINITY) objectiveBound_ = -infinity` (line 41). -/
def translateObjectiveBound (v : Flt) : Flt :=
  if v = Flt.fin (-gurobiInfinity) then Flt.negInf else v

/-- Result of one dispatch of `Callback::callback`: the updated callback
state, and whether each user routine (`separateAndAddLazyConstraints`,
`computeFeasibleSolution`) was invoked during the dispatch. -/
structure StepOut where
  state : CBState
  separationInvoked : Bool
  heuristicInvoked : Bool
deriving DecidableEq

/-- One dispatch of `Callback::callback` (lines 31-54), with the user
routines modelled as always returning normally.  The body first updates
`objectiveBest_`/`objectiveBound_` if `where == GRB_CB_MIP`, then: if
`where == GRB_CB_MIPSOL` it calls `separateAndAddLazyConstraints()` and sets
`feasibleHeuristic_ = true`; else if `where == GRB_CB_MIPNODE` and
`feasibleHeuristic_` it calls `computeFeasibleSolution()` and sets
`feasibleHeuristic_ = false`. -/
def callbackStep (s : CBState) (w : Where) : StepOut :=
  let s1 : CBState :=
    match w with
    | Where.mip objBst objBnd =>
        { s with
            objectiveBest := translateObjectiveBest objBst
            objectiveBound := translateObjectiveBound objBnd }
    | _ => s
  match w with
  | Where.mipsol =>
      { state := { s1 with feasibleHeuristic := true }
        separationInvoked := true
        heuristicInvoked := false }
  | Where.mipnode =>
      if s1.feasibleHeuristic then
        { state := { s1 with feasibleHeuristic := false }
          separationInvoked := false
          heuristicInvoked := true }
      else
        { state := s1, separationInvoked := false, heuristicInvoked := false }
  | _ => { state := s1, separationInvoked := false, heuristicInvoked := false }

/-- The callback state after a sequence of dispatches. -/
def runTrace (s : CBState) : List Where → CBState
  | [] => s
  | w :: ws => runTrace (callbackStep s w).state ws

/-- How many dispatches of a sequence invoke `computeFeasibleSolution`. -/
def heuristicCount (s : CBState) : List Where → Nat
  | [] => 0
  | w :: ws =>
      (if (callbackStep s w).heuristicInvoked then 1 else 0) +
        heuristicCount (callbackStep s w).state ws

/-- How many dispatches of a sequence are `GRB_CB_MIPSOL` dispatches. -/
def mipsolCount : List Where → Nat
  | [] => 0
  | w :: ws => (if w.isMipsol then 1 else 0) + mipsolCount ws

lemma callbackStep_mip_flag (s : CBState) (a b : Flt) :
    (callbackStep s (Where.mip a b)).state.feasibleHeuristic = s.feasibleHeuristic ∧
      (callbackStep s (Where.mip a b)).heuristicInvoked = false := by
  simp [callbackStep]

lemma callbackStep_mipsol (s : CBState) :
    (callbackStep s Where.mipsol).state.feasibleHeuristic = true ∧
      (callbackStep s Where.mipsol).heuristicInvoked = false := by
  simp [callbackStep]

lemma callbackStep_other (s : CBState) :
    (callbackStep s Where.other).state = s ∧
      (callbackStep s Where.other).heuristicInvoked = false := by
  simp [callbackStep]

lemma noMipnode_preserves (ws : List Where) :
    ∀ s : CBState, (∀ w ∈ ws, w.isMipnode = false) → s.feasibleHeuristic = true →
      (runTrace s ws).feasibleHeuristic = true ∧ heuristicCount s ws = 0 := by
  induction ws with
  | nil => intro s _ hs; exact ⟨hs, rfl⟩
  | cons w ws ih =>
      intro s hws hs
      have hw : w.isMipnode = false := hws w (List.mem_cons_self w ws)
      have hrest : ∀ x ∈ ws, x.isMipnode = false := fun x hx =>
        hws x (List.mem_cons_of_mem w hx)
      have hflag : (callbackStep s w).state.feasibleHeuristic = true ∧
          (callbackStep s w).heuristicInvoked = false := by
        cases w with
        | mip a b => simpa [callbackStep] using hs
        | mipsol => simp [callbackStep]
        | mipnode => simp [Where.isMipnode] at hw
        | other => simpa [callbackStep] using hs
      have := ih (callbackStep s w).state hrest hflag.1
      refine ⟨by simpa [runTrace] using this.1, ?_⟩
      simp [heuristicCount, hflag.2, this.2]

lemma heuristicCount_le (ws : List Where) :
    ∀ s : CBState,
      heuristicCount s ws ≤ mipsolCount ws + (if s.feasibleHeuristic then 1 else 0) := by
  induction ws with
  | nil => intro s; simp [heuristicCount, mipsolCount]
  | cons w ws ih =>
      intro s
      cases w with
      | mip a b =>
          have h := ih (callbackStep s (Where.mip a b)).state
          simp only [heuristicCount, mipsolCount, Where.isMipsol,
            callbackStep_mip_flag s a b] at h ⊢
          simpa [callbackStep] using h
      | mipsol =>
          have h := ih (callbackStep s Where.mipsol).state
          simp only [heuristicCount, mipsolCount, Where.isMipsol] at h ⊢
          simp [callbackStep] at h ⊢
          omega
      | mipnode =>
          have h := ih (callbackStep s Where.mipnode).state
          by_cases hf : s.feasibleHeuristic
          · simp only [heuristicCount, mipsolCount, Where.isMipsol] at h ⊢
            simp [callbackStep, hf] at h ⊢
            omega
          · simp only [heuristicCount, mipsolCount, Where.isMipsol] at h ⊢
            simp [callbackStep, hf] at h ⊢
            simpa [hf] using h
      | other =>
          have h := ih (callbackStep s Where.other).state
          simp only [heuristicCount, mipsolCount, Where.isMipsol] at h ⊢
          simpa [callbackStep] using h

/-- The message-wrapping performed by the `catch` clause of
`Callback::callback` (lines 55-58): a `GRBException e` is rethrown as
`std::runtime_error(std::string("Gurobi error ") + std::to_string(e.getErrorCode())
+ ": " + e.getMessage() + " while executing Gurobi callback")`;
any other exception propagates unchanged (it is not caught). -/
def wrapGurobiError : Err → Err
  | Err.grbException c m =>
      Err.runtimeError
        ("Gurobi error " ++ toString c ++ ": " ++ m ++ " while executing Gurobi callback")
  | e => e

/-- The `try` body of `Callback::callback` (lines 32-54), with the user
routines `separateAndAddLazyConstraints` and `computeFeasibleSolution`
modelled as fallible computations: an exception raised by a routine (or by
the solver inside it, e.g. from `addLazy`) propagates out of the body
before the subsequent assignment to `feasibleHeuristic_` runs. -/
def callbackBody (s : CBState) (w : Where)
    (sep heur : Except Err Unit) : Except Err StepOut :=
  let s1 : CBState :=
    match w with
    | Where.mip objBst objBnd =>
        { s with
            objectiveBest := translateObjectiveBest objBst
            objectiveBound := translateObjectiveBound objBnd }
    | _ => s
  match w with
  | Where.mipsol =>
      match sep with
      | Except.error e => Except.error e
      | Except.ok _ =>
          Except.ok
            { state := { s1 with feasibleHeuristic := true }
              separationInvoked := true
              heuristicInvoked := false }
  | Where.mipnode =>
      if s1.feasibleHeuristic then
        match heur with
        | Except.error e => Except.error e
        | Except.ok _ =>
            Except.ok
              { state := { s1 with feasibleHeuristic := false }
                separationInvoked := false
                heuristicInvoked := true }
      else
        Except.ok { state := s1, separationInvoked := false, heuristicInvoked := false }
  | _ => Except.ok { state := s1, separationInvoked := false, heuristicInvoked := false }

/-- One dispatch of `Callback::callback` including its `try`/`catch`
(lines 31-58): the body runs, and a propagating exception passes through
the `catch` clause, which rewraps a `GRBException` as a `runtimeError`
carrying the original error code and message and lets every other
exception through unchanged. -/
def callbackDispatch (s : CBState) (w : Where)
    (sep heur : Except Err Unit) : Except Err StepOut :=
  match callbackBody s w sep heur with
  | Except.error e => Except.error (wrapGurobiError e)
  | r => r

/-- The part of the solver state the wrapper queries: the number of
variables held by the underlying `GRBModel`, and the post-solve attributes
`ObjVal`, `ObjBound` and per-variable `X`, which are unavailable (`none`)
before a solution exists. -/
structure GRBModelState where
  numVars : Nat
  objVal : Option ℚ
  objBound : Option ℚ
  xVals : Option (List ℚ)
deriving DecidableEq

/-- State of a `Gurobi` session object (`gurobi-callback.hxx`, lines
138-144): the model, the `gurobiVariables_` array — modelled by the model
index of its first element and its length, since `GRBModel::addVars`
returns an array of exactly the newly added variables — the accumulated
`gurobiObjective_` as (model-variable index, coefficient) terms, and the
counter `nVariables_`. -/
structure GurobiState where
  model : GRBModelState
  varArrayFirst : Nat
  varArrayLen : Nat
  objectiveTerms : List (Nat × ℚ)
  nVariables : Nat
deriving DecidableEq

/-- A freshly constructed `Gurobi` object: no variables, `gurobiVariables_`
is `nullptr` (length 0), no post-solve attributes available. -/
def initialGurobi : GurobiState :=
  { model := { numVars := 0, objVal := none, objBound := none, xVals := none }
    varArrayFirst := 0
    varArrayLen := 0
    objectiveTerms := []
    nVariables := 0 }

/-- `Gurobi::addVariables(numberOfVariables, coefficients)` (lines 283-293):
increments `nVariables_`, replaces `gurobiVariables_` with the array
returned by `gurobiModel_->addVars(numberOfVariables, GRB_BINARY)` — which
holds only the newly added variables — and extends `gurobiObjective_` by
one term per coefficient, pairing `coefficients[i]` with the `i`-th newly
added variable.  The coefficient array is modelled as a list whose length
is `numberOfVariables`. -/
def addVariables (s : GurobiState) (coefficients : List ℚ) : GurobiState :=
  let n := coefficients.length
  { s with
      nVariables := s.nVariables + n
      varArrayFirst := s.model.numVars
      varArrayLen := n
      model := { s.model with numVars := s.model.numVars + n }
      objectiveTerms :=
        s.objectiveTerms ++
          ((List.range n).zip coefficients).map
            (fun p => (s.model.numVars + p.1, p.2)) }

/-- The meaning of the C++ expression `gurobiVariables_[j]`: the model
variable it denotes, or `none` when `j` is out of the array's bounds
(undefined behavior in the source). -/
def modelVarOf (s : GurobiState) (j : Nat) : Option Nat :=
  if j < s.varArrayLen then some (s.varArrayFirst + j) else none

/-- Model of the black-box solver query
`gurobiModel_->get(GRB_DoubleAttr_ObjVal)`: Gurobi returns the attribute
value when one is available and otherwise throws a `GRBException` with
error code `GRB_ERROR_DATA_NOT_AVAILABLE` (10005). -/
def grbGetObjVal (m : GRBModelState) : Except Err ℚ :=
  match m.objVal with
  | some v => Except.ok v
  | none => Except.error (Err.grbException 10005 "Unable to retrieve attribute")

/-- Model of the black-box solver query
`gurobiModel_->get(GRB_DoubleAttr_ObjBound)`, as for `ObjVal`. -/
def grbGetObjBound (m : GRBModelState) : Except Err ℚ :=
  match m.objBound with
  | some v => Except.ok v
  | none => Except.error (Err.grbException 10005 "Unable to retrieve attribute")

/-- Model of the black-box solver query `var.get(GRB_DoubleAttr_X)` on the
model variable with index `mv`, as for `ObjVal`. -/
def grbGetX (m : GRBModelState) (mv : Nat) : Except Err ℚ :=
  match m.xVals with
  | some vals =>
      match vals.get? mv with
      | some v => Except.ok v
      | none => Except.error Err.undefinedBehavior
  | none => Except.error (Err.grbException 10005 "Unable to retrieve attribute")

/-- `Gurobi::objective()` (lines 316-319): an unconditional forward of
`gurobiModel_->get(GRB_DoubleAttr_ObjVal)`; the wrapper performs no state
check of its own. -/
def objectiveRun (s : GurobiState) : Except Err ℚ :=
  grbGetObjVal s.model

/-- `Gurobi::bound()` (lines 321-324): an unconditional forward of
`gurobiModel_->get(GRB_DoubleAttr_ObjBound)`. -/
def boundRun (s : GurobiState) : Except Err ℚ :=
  grbGetObjBound s.model

/-- `Gurobi::gap()` (lines 326-329):
`(objective() - bound()) / (1.0 + std::fabs(objective()))`, calling
`objective()` twice as the source does; an exception from any of the three
attribute queries propagates. -/
def gapRun (s : GurobiState) : Except Err ℚ :=
  match objectiveRun s with
  | Except.error e => Except.error e
  | Except.ok o =>
      match boundRun s with
      | Except.error e => Except.error e
      | Except.ok b =>
          match objectiveRun s with
          | Except.error e => Except.error e
          | Except.ok o2 => Except.ok ((o - b) / (1 + |o2|))

/-- `Gurobi::label(variableIndex)` (lines 331-336):
`gurobiVariables_[variableIndex].get(GRB_DoubleAttr_X)`, with no bounds
check on the array access. -/
def labelRun (s : GurobiState) (j : Nat) : Except Err ℚ :=
  match modelVarOf s j with
  | some mv => grbGetX s.model mv
  | none => Except.error Err.undefinedBehavior

/-- A session state in which the solver has reported objective value 3 and
objective bound 2 (as after a successful `optimize()`). -/
def solvedSessionExample : GurobiState :=
  { model := { numVars := 0, objVal := some 3, objBound := some 2, xVals := none }
    varArrayFirst := 0
    varArrayLen := 0
    objectiveTerms := []
    nVariables := 0 }

/-- The loop body of `Gurobi::setStart` (lines 381-390) from loop index `j`
with `k` iterations remaining: each iteration reads `*valueIterator`
(modelled as `values.get? j`; reading past the supplied sequence is
undefined behavior) and writes it to `gurobiVariables_[j]`'s `Start`
attribute (out-of-bounds array access is undefined behavior).  The result
collects the performed (model variable, value) writes in order. -/
def setStartAux (s : GurobiState) (values : List ℚ) : Nat → Nat → Except Err (List (Nat × ℚ))
  | _, 0 => Except.ok []
  | j, k + 1 =>
      match modelVarOf s j, values.get? j with
      | some mv, some v =>
          match setStartAux s values (j + 1) k with
          | Except.ok rest => Except.ok ((mv, v) :: rest)
          | Except.error e => Except.error e
      | _, _ => Except.error Err.undefinedBehavior

/-- `Gurobi::setStart(valueIterator)` (lines 381-390): iterates
`j = 0 .. nVariables_ - 1`, setting `gurobiVariables_[j]`'s `Start`
attribute from successive iterator values.  No length information is taken
and no validation is performed. -/
def setStartRun (s : GurobiState) (values : List ℚ) : Except Err (List (Nat × ℚ)) :=
  setStartAux s values 0 s.nVariables

/-- The loop of `Gurobi::addConstraint` / `Callback::addLazyConstraint`
building `GRBLinExpr expression`: for each variable index it reads one
coefficient (`*coefficient`, advancing both iterators together; exhausting
the coefficient sequence is undefined behavior) and adds the term
`coefficient * gurobiVariables_[index]` (out-of-bounds access is undefined
behavior). -/
def buildLinExpr (s : GurobiState) : List Nat → List ℚ → Except Err (List (Nat × ℚ))
  | [], _ => Except.ok []
  | _ :: _, [] => Except.error Err.undefinedBehavior
  | vi :: vis, c :: cs =>
      match modelVarOf s vi with
      | some mv =>
          match buildLinExpr s vis cs with
          | Except.ok rest => Except.ok ((mv, c) :: rest)
          | Except.error e => Except.error e
      | none => Except.error Err.undefinedBehavior

/-- The sense of an emitted Gurobi constraint (`GRB_EQUAL`,
`GRB_GREATER_EQUAL`, `GRB_LESS_EQUAL`). -/
inductive ConstraintSense where
  | equal : ConstraintSense
  | greaterEqual : ConstraintSense
  | lessEqual : ConstraintSense
deriving DecidableEq

/-- A constraint handed to the solver: the linear expression's terms as
(model-variable index, coefficient) pairs, the sense, and the bound on the
right-hand side. -/
structure EmittedConstraint where
  terms : List (Nat × ℚ)
  sense : ConstraintSense
  rhs : Flt
deriving DecidableEq

/-- `Gurobi::addConstraint(viBegin, viEnd, coefficient, lowerBound,
upperBound)` (lines 353-379): builds the expression, then if
`lowerBound == upperBound` calls `addConstr(expression, GRB_EQUAL, ...)`,
otherwise calls `addConstr(expression, GRB_GREATER_EQUAL, lowerBound)` when
`lowerBound != -infinity` and `addConstr(expression, GRB_LESS_EQUAL,
upperBound)` when `upperBound != infinity`.  The returned list holds the
emitted constraints in emission order. -/
def addConstraintRun (s : GurobiState) (varIndices : List Nat) (coefficients : List ℚ)
    (lowerBound upperBound : Flt) : Except Err (List EmittedConstraint) :=
  match buildLinExpr s varIndices coefficients with
  | Except.error e => Except.error e
  | Except.ok expression =>
      if lowerBound = upperBound then
        Except.ok [⟨expression, ConstraintSense.equal, lowerBound⟩]
      else
        Except.ok
          ((if lowerBound ≠ Flt.negInf then
              [⟨expression, ConstraintSense.greaterEqual, lowerBound⟩] else []) ++
           (if upperBound ≠ Flt.posInf then
              [⟨expression, ConstraintSense.lessEqual, upperBound⟩] else []))

/-- `Callback::addLazyConstraint(viBegin, viEnd, coefficient, lowerBound,
upperBound)` (lines 73-97): identical expression building over
`gurobi_.gurobiVariables_`, then if `lowerBound == upperBound` calls
`addLazy(expression == lowerBound)`, otherwise calls
`addLazy(lowerBound <= expression)` when `lowerBound != -infinity` and
`addLazy(expression <= upperBound)` when `upperBound != infinity`. -/
def addLazyConstraintRun (s : GurobiState) (varIndices : List Nat) (coefficients : List ℚ)
    (lowerBound upperBound : Flt) : Except Err (List EmittedConstraint) :=
  match buildLinExpr s varIndices coefficients with
  | Except.error e => Except.error e
  | Except.ok expression =>
      if lowerBound = upperBound then
        Except.ok [⟨expression, ConstraintSense.equal, lowerBound⟩]
      else
        Except.ok
          ((if lowerBound ≠ Flt.negInf then
              [⟨expression, ConstraintSense.greaterEqual, lowerBound⟩] else []) ++
           (if upperBound ≠ Flt.posInf then
              [⟨expression, ConstraintSense.lessEqual, upperBound⟩] else []))

/-- The one-sided emission list shared by the `lowerBound != upperBound`
branches of `Gurobi::addConstraint` and `Callback::addLazyConstraint`. -/
def oneSided (expression : List (Nat × ℚ)) (lowerBound upperBound : Flt) :
    List EmittedConstraint :=
  (if lowerBound ≠ Flt.negInf then
      [⟨expression, ConstraintSense.greaterEqual, lowerBound⟩] else []) ++
  (if upperBound ≠ Flt.posInf then
      [⟨expression, ConstraintSense.lessEqual, upperBound⟩] else [])

/-- The integer solver parameters written by `Gurobi::setPreSolver`. -/
inductive GRBIntParam where
  | presolveParam : GRBIntParam
  | preDualParam : GRBIntParam
  | prePassesParam : GRBIntParam
deriving DecidableEq

/-- The enum `Gurobi::PreSolver` (line 17). -/
inductive PreSolver where
  | PRE_SOLVER_AUTO : PreSolver
  | PRE_SOLVER_PRIMAL : PreSolver
  | PRE_SOLVER_DUAL : PreSolver
  | PRE_SOLVER_NONE : PreSolver
deriving DecidableEq

/-- The default value of the `passes` parameter of `Gurobi::setPreSolver`
(declaration line 119: `void setPreSolver(const PreSolver, const int = -1)`). -/
def setPreSolverDefaultPasses : Int := -1

/-- `Gurobi::setPreSolver(preSolver, passes)` (lines 229-260) as the
ordered sequence of (parameter, value) writes it performs: the
`PRE_SOLVER_NONE` case sets `GRB_IntParam_Presolve` to 0 and returns
early; the other cases set `GRB_IntParam_PreDual` (to -1, 0 or 1) and fall
through to set `GRB_IntParam_PrePasses` to `passes`. -/
def setPreSolverWrites : PreSolver → Int → List (GRBIntParam × Int)
  | PreSolver.PRE_SOLVER_NONE, _ => [(GRBIntParam.presolveParam, 0)]
  | PreSolver.PRE_SOLVER_AUTO, passes =>
      [(GRBIntParam.preDualParam, -1), (GRBIntParam.prePassesParam, passes)]
  | PreSolver.PRE_SOLVER_PRIMAL, passes =>
      [(GRBIntParam.preDualParam, 0), (GRBIntParam.prePassesParam, passes)]
  | PreSolver.PRE_SOLVER_DUAL, passes =>
      [(GRBIntParam.preDualParam, 1), (GRBIntParam.prePassesParam, passes)]

lemma Flt.lt_ne {a b : Flt} (h : Flt.lt a b = true) : a ≠ b := by
  cases a <;> cases b <;> simp [Flt.lt] at h ⊢
  exact ne_of_lt h

lemma setStartAux_error_eq (s : GurobiState) (values : List ℚ) :
    ∀ (k j : Nat) (e : Err), setStartAux s values j k = Except.error e →
      e = Err.undefinedBehavior := by
  intro k
  induction k with
  | zero => intro j e h; simp [setStartAux] at h
  | succ k ih =>
      intro j e h
      simp only [setStartAux] at h
      cases hm : modelVarOf s j with
      | none =>
          rw [hm] at h
          exact (Except.error.inj h).symm
      | some mv =>
          cases hv : values.get? j with
          | none =>
              rw [hm, hv] at h
              exact (Except.error.inj h).symm
          | some v =>
              rw [hm, hv] at h
              cases hr : setStartAux s values (j + 1) k with
              | ok rest => rw [hr] at h; exact Except.noConfusion h
              | error e2 =>
                  rw [hr] at h
                  exact (Except.error.inj h) ▸ ih (j + 1) e2 hr

lemma setStartAux_ok (s : GurobiState) (values : List ℚ) :
    ∀ (k j : Nat), j + k ≤ s.varArrayLen → j + k ≤ values.length →
      setStartAux s values j k =
        Except.ok ((List.range' j k).map
          fun i => (s.varArrayFirst + i, (values.get? i).getD 0)) := by
  intro k
  induction k with
  | zero => intro j _ _; simp [setStartAux]
  | succ k ih =>
      intro j h1 h2
      have hj1 : j < s.varArrayLen := by omega
      have hj2 : j < values.length := by omega
      have hm : modelVarOf s j = some (s.varArrayFirst + j) := by
        simp [modelVarOf, hj1]
      cases hv : values.get? j with
      | none => exact absurd (List.get?_eq_none.mp hv) (by omega)
      | some v =>
          have hr := ih (j + 1) (by omega) (by omega)
          simp only [setStartAux]
          rw [hm, hv, hr, List.range'_succ, List.map_cons, hv]
          rfl

lemma setStartAux_short (s : GurobiState) (values : List ℚ) :
    ∀ (k j : Nat), j ≤ values.length → values.length < j + k →
      setStartAux s values j k = Except.error Err.undefinedBehavior := by
  intro k
  induction k with
  | zero => intro j h1 h2; omega
  | succ k ih =>
      intro j h1 h2
      by_cases hj : j < values.length
      · cases hv : values.get? j with
        | none => exact absurd (List.get?_eq_none.mp hv) (by omega)
        | some v =>
            cases hm : modelVarOf s j with
            | none => simp only [setStartAux]; rw [hm]
            | some mv =>
                have hr := ih (j + 1) (by omega) (by omega)
                simp only [setStartAux]; rw [hm, hv, hr]
      · have hv : values.get? j = none := List.get?_eq_none.mpr (by omega)
        cases hm : modelVarOf s j with
        | none => simp only [setStartAux]; rw [hm]
        | some mv => simp only [setStartAux]; rw [hm, hv]

lemma buildLinExpr_error_eq (s : GurobiState) :
    ∀ (vis : List Nat) (cs : List ℚ) (e : Err),
      buildLinExpr s vis cs = Except.error e → e = Err.undefinedBehavior := by
  intro vis
  induction vis with
  | nil => intro cs e h; simp [buildLinExpr] at h
  | cons vi vis ih =>
      intro cs e h
      cases cs with
      | nil => exact (Except.error.inj h).symm
      | cons c cs =>
          simp only [buildLinExpr] at h
          cases hm : modelVarOf s vi with
          | none =>
              rw [hm] at h
              exact (Except.error.inj h).symm
          | some mv =>
              rw [hm] at h
              cases hr : buildLinExpr s vis cs with
              | ok rest => rw [hr] at h; exact Except.noConfusion h
              | error e2 =>
                  rw [hr] at h
                  exact (Except.error.inj h) ▸ ih cs e2 hr

lemma buildLinExpr_oob (s : GurobiState) :
    ∀ (vis : List Nat) (cs : List ℚ),
      (∃ vi ∈ vis, s.varArrayLen ≤ vi) →
      buildLinExpr s vis cs = Except.error Err.undefinedBehavior := by
  intro vis
  induction vis with
  | nil => intro cs h; simp at h
  | cons vi vis ih =>
      intro cs h
      cases cs with
      | nil => rfl
      | cons c cs =>
          obtain ⟨x, hx, hge⟩ := h
          rcases List.mem_cons.mp hx with hx | hx
          · subst hx
            have hm : modelVarOf s x = none := by
              unfold modelVarOf
              rw [if_neg (by omega)]
            simp only [buildLinExpr]; rw [hm]
          · cases hm : modelVarOf s vi with
            | none => simp only [buildLinExpr]; rw [hm]
            | some mv =>
                have hr := ih cs ⟨x, hx, hge⟩
                simp only [buildLinExpr]; rw [hm, hr]

lemma objectiveRun_some {s : GurobiState} {o : ℚ} (h : s.model.objVal = some o) :
    objectiveRun s = Except.ok o := by
  unfold objectiveRun grbGetObjVal
  rw [h]

lemma objectiveRun_none {s : GurobiState} (h : s.model.objVal = none) :
    objectiveRun s =
      Except.error (Err.grbException 10005 "Unable to retrieve attribute") := by
  unfold objectiveRun grbGetObjVal
  rw [h]

lemma boundRun_some {s : GurobiState} {b : ℚ} (h : s.model.objBound = some b) :
    boundRun s = Except.ok b := by
  unfold boundRun grbGetObjBound
  rw [h]

lemma boundRun_none {s : GurobiState} (h : s.model.objBound = none) :
    boundRun s =
      Except.error (Err.grbException 10005 "Unable to retrieve attribute") := by
  unfold boundRun grbGetObjBound
  rw [h]

/-- Claim C1, counterexample to its final conjunct.  The claim states the
flag is never true across two consecutive `IntegerCandidateFound`
(`GRB_CB_MIPSOL`) dispatches without an intervening reset.  For the
dispatch sequence `[MIPSOL, MIPSOL]` (which the opaque solver may produce,
no `MIPNODE` intervening) starting from the initial callback state,
`feasibleHeuristic_` is true immediately after the first dispatch and still
true entering and after the second, and neither dispatch invokes the
heuristic or clears the flag: the flag is true across the two consecutive
events with no reset in between. -/
theorem C1_counterexample :
    (callbackStep initialCBState Where.mipsol).state.feasibleHeuristic = true ∧
    (callbackStep (callbackStep initialCBState Where.mipsol).state
        Where.mipsol).state.feasibleHeuristic = true ∧
    (callbackStep initialCBState Where.mipsol).heuristicInvoked = false ∧
    (callbackStep (callbackStep initialCBState Where.mipsol).state
        Where.mipsol).heuristicInvoked = false ∧
    heuristicCount initialCBState [Where.mipsol, Where.mipsol] = 0 :=
  ⟨rfl, rfl, rfl, rfl, rfl⟩

/-- Claim C1 (amended): for every dispatch handled by
`Callback::callback`, the flag `feasibleHeuristic_` is true immediately
after each `GRB_CB_MIPSOL` dispatch (the separation routine having been
invoked); a `GRB_CB_MIPNODE` dispatch with the flag true invokes the
heuristic-completion routine exactly once and clears the flag; a
`GRB_CB_MIPNODE` dispatch with the flag false invokes no user routine and
leaves the state unchanged; the flag is cleared only by a `GRB_CB_MIPNODE`
dispatch — across any dispatch sequence free of `MIPNODE` a set flag stays
set and the heuristic never runs (so the flag can remain true across
consecutive `MIPSOL` events, the amendment) — and the heuristic runs at
most once per discovered integer candidate: its invocation count over any
sequence is bounded by the number of `MIPSOL` events plus one for an
initially set flag. -/
theorem C1_callback_flag_protocol : ∀ (s : CBState) (ws : List Where),
    ((callbackStep s Where.mipsol).separationInvoked = true ∧
      (callbackStep s Where.mipsol).state.feasibleHeuristic = true) ∧
    (s.feasibleHeuristic = true →
      (callbackStep s Where.mipnode).heuristicInvoked = true ∧
      (callbackStep s Where.mipnode).state.feasibleHeuristic = false ∧
      (callbackStep s Where.mipnode).separationInvoked = false) ∧
    (s.feasibleHeuristic = false →
      (callbackStep s Where.mipnode).heuristicInvoked = false ∧
      (callbackStep s Where.mipnode).separationInvoked = false ∧
      (callbackStep s Where.mipnode).state = s) ∧
    ((∀ w ∈ ws, w.isMipnode = false) → s.feasibleHeuristic = true →
      (runTrace s ws).feasibleHeuristic = true ∧ heuristicCount s ws = 0) ∧
    heuristicCount s ws ≤ mipsolCount ws + (if s.feasibleHeuristic then 1 else 0) := by
  intro s ws
  refine ⟨?_, ?_, ?_, fun h1 h2 => noMipnode_preserves ws s h1 h2,
    heuristicCount_le ws s⟩
  · exact ⟨rfl, rfl⟩
  · intro hf
    simp [callbackStep, hf]
  · intro hf
    simp [callbackStep, hf]

/-- Witness for C1: a concrete `MIPNODE`-free dispatch sequence from a
state with the flag set keeps the flag set and never runs the heuristic. -/
theorem C1_witness :
    (runTrace { initialCBState with feasibleHeuristic := true }
        [Where.mipsol, Where.other]).feasibleHeuristic = true ∧
    heuristicCount { initialCBState with feasibleHeuristic := true }
        [Where.mipsol, Where.other] = 0 :=
  (C1_callback_flag_protocol { initialCBState with feasibleHeuristic := true }
      [Where.mipsol, Where.other]).2.2.2.1
    (by simp [Where.isMipnode]) rfl

/-- Claim C2: for every constraint addition — `Gurobi::addConstraint` and
`Callback::addLazyConstraint` alike — whose expression builds successfully,
if `lowerBound == upperBound` exactly one equality constraint is emitted;
if `lowerBound < upperBound` the emitted list has at most two one-sided
constraints, the lower-bound side present iff the lower bound is not
negative infinity and the upper-bound side present iff the upper bound is
not positive infinity. -/
theorem C2_constraint_emission : ∀ (s : GurobiState) (vis : List Nat)
    (cs : List ℚ) (lb ub : Flt) (e : List (Nat × ℚ)),
    buildLinExpr s vis cs = Except.ok e →
    ((lb = ub →
        addConstraintRun s vis cs lb ub =
          Except.ok [⟨e, ConstraintSense.equal, lb⟩] ∧
        addLazyConstraintRun s vis cs lb ub =
          Except.ok [⟨e, ConstraintSense.equal, lb⟩]) ∧
     (Flt.lt lb ub = true →
        addConstraintRun s vis cs lb ub = Except.ok (oneSided e lb ub) ∧
        addLazyConstraintRun s vis cs lb ub = Except.ok (oneSided e lb ub) ∧
        (oneSided e lb ub).length ≤ 2 ∧
        (∀ c ∈ oneSided e lb ub, c.terms = e ∧ c.sense ≠ ConstraintSense.equal) ∧
        ((∃ c ∈ oneSided e lb ub,
            c.sense = ConstraintSense.greaterEqual ∧ c.rhs = lb) ↔
          lb ≠ Flt.negInf) ∧
        ((∃ c ∈ oneSided e lb ub,
            c.sense = ConstraintSense.lessEqual ∧ c.rhs = ub) ↔
          ub ≠ Flt.posInf))) := by
  intro s vis cs lb ub e hb
  constructor
  · intro heq
    subst heq
    unfold addConstraintRun addLazyConstraintRun
    simp [hb]
  · intro hlt
    have hne : lb ≠ ub := Flt.lt_ne hlt
    have h1 : addConstraintRun s vis cs lb ub = Except.ok (oneSided e lb ub) := by
      unfold addConstraintRun oneSided
      simp only [hb]
      rw [if_neg hne]
    have h2 : addLazyConstraintRun s vis cs lb ub = Except.ok (oneSided e lb ub) := by
      unfold addLazyConstraintRun oneSided
      simp only [hb]
      rw [if_neg hne]
    refine ⟨h1, h2, ?_, ?_, ?_, ?_⟩ <;>
      by_cases hl : lb = Flt.negInf <;> by_cases hu : ub = Flt.posInf <;>
        simp [oneSided, hl, hu]

/-- Witness for C2: a two-variable session, constraint `2 x0 + 3 x1 ≥ 1`
(upper bound positive infinity) emits exactly the one-sided list. -/
theorem C2_witness :
    addConstraintRun (addVariables initialGurobi [1, 1]) [0, 1] [2, 3]
        (Flt.fin 1) Flt.posInf =
      Except.ok (oneSided [(0, 2), (1, 3)] (Flt.fin 1) Flt.posInf) :=
  ((C2_constraint_emission (addVariables initialGurobi [1, 1]) [0, 1] [2, 3]
      (Flt.fin 1) Flt.posInf [(0, 2), (1, 3)] rfl).2 rfl).1

/-- Claim C3, counterexample.  The claim says any solver sentinel,
positive or negative, received for either value is mapped to the
correspondingly signed floating-point infinity.  On a `GRB_CB_MIP`
dispatch reporting `OBJBST = -GRB_INFINITY` and `OBJBND = GRB_INFINITY`,
the code stores both values unchanged: `objectiveBest_` becomes the finite
double `-1e100` (not negative infinity) because line 37 compares only
against `+GRB_INFINITY`, and `objectiveBound_` becomes the finite double
`+1e100` (not positive infinity) because line 41 compares only against
`-GRB_INFINITY`. -/
theorem C3_counterexample :
    (callbackStep initialCBState
        (Where.mip (Flt.fin (-gurobiInfinity))
          (Flt.fin gurobiInfinity))).state.objectiveBest =
      Flt.fin (-gurobiInfinity) ∧
    (callbackStep initialCBState
        (Where.mip (Flt.fin (-gurobiInfinity))
          (Flt.fin gurobiInfinity))).state.objectiveBound =
      Flt.fin gurobiInfinity ∧
    Flt.fin (-gurobiInfinity) ≠ Flt.negInf ∧
    Flt.fin gurobiInfinity ≠ Flt.posInf := by
  have h1 : Flt.fin (-gurobiInfinity) ≠ Flt.fin gurobiInfinity := by
    simp only [ne_eq, Flt.fin.injEq, gurobiInfinity]
    norm_num
  have h2 : Flt.fin gurobiInfinity ≠ Flt.fin (-gurobiInfinity) := by
    simp only [ne_eq, Flt.fin.injEq, gurobiInfinity]
    norm_num
  refine ⟨?_, ?_, by simp, by simp⟩
  · simp [callbackStep, translateObjectiveBest, h1]
  · simp [callbackStep, translateObjectiveBound, h2]

/-- Claim C3 (amended): on every `GRB_CB_MIP` (`GlobalProgress`) dispatch
the callback state is updated from the solver-reported values with each
value passed through its translation; the translation maps the positive
sentinel `GRB_INFINITY` to positive infinity for `objectiveBest_` and the
negative sentinel `-GRB_INFINITY` to negative infinity for
`objectiveBound_`, and stores every other received value unchanged (in
particular a negative sentinel for the best objective and a positive
sentinel for the bound are NOT translated); no user routine is invoked. -/
theorem C3_sentinel_translation : ∀ (s : CBState) (a b : Flt),
    (callbackStep s (Where.mip a b)).state.objectiveBest =
      translateObjectiveBest a ∧
    (callbackStep s (Where.mip a b)).state.objectiveBound =
      translateObjectiveBound b ∧
    (callbackStep s (Where.mip a b)).separationInvoked = false ∧
    (callbackStep s (Where.mip a b)).heuristicInvoked = false ∧
    translateObjectiveBest (Flt.fin gurobiInfinity) = Flt.posInf ∧
    (a ≠ Flt.fin gurobiInfinity → translateObjectiveBest a = a) ∧
    translateObjectiveBound (Flt.fin (-gurobiInfinity)) = Flt.negInf ∧
    (b ≠ Flt.fin (-gurobiInfinity) → translateObjectiveBound b = b) := by
  intro s a b
  refine ⟨rfl, rfl, rfl, rfl, ?_, ?_, ?_, ?_⟩
  · simp [translateObjectiveBest]
  · intro h
    simp [translateObjectiveBest, h]
  · simp [translateObjectiveBound]
  · intro h
    simp [translateObjectiveBound, h]

/-- Witness for C3: a non-sentinel best objective is stored unchanged. -/
theorem C3_witness : translateObjectiveBest (Flt.fin 5) = Flt.fin 5 :=
  (C3_sentinel_translation initialCBState (Flt.fin 5) Flt.negInf).2.2.2.2.2.1
    (by simp only [ne_eq, Flt.fin.injEq, gurobiInfinity]; norm_num)

/-- Claim C4: an error raised during a callback dispatch — by the user
separation routine on `GRB_CB_MIPSOL`, or by the heuristic routine (or the
solver's injection primitives inside it) on `GRB_CB_MIPNODE` — makes the
dispatch terminate with that error rather than returning normally (so the
surrounding `optimize()` aborts, nothing is swallowed), and a solver
`GRBException` is rethrown as the runtime error whose message carries the
original error code and message. -/
theorem C4_callback_error_propagation :
    ∀ (s : CBState) (sep heur : Except Err Unit) (e : Err),
    (sep = Except.error e →
      callbackDispatch s Where.mipsol sep heur =
        Except.error (wrapGurobiError e)) ∧
    (s.feasibleHeuristic = true → heur = Except.error e →
      callbackDispatch s Where.mipnode sep heur =
        Except.error (wrapGurobiError e)) ∧
    (∀ (c : Int) (m : String),
      wrapGurobiError (Err.grbException c m) =
        Err.runtimeError ("Gurobi error " ++ toString c ++ ": " ++ m ++
          " while executing Gurobi callback")) ∧
    (∀ m, wrapGurobiError (Err.otherError m) = Err.otherError m) := by
  intro s sep heur e
  refine ⟨?_, ?_, fun c m => rfl, fun m => rfl⟩
  · intro h
    subst h
    rfl
  · intro hf h
    subst h
    simp [callbackDispatch, callbackBody, hf]

/-- Witness for C4: a separation routine failing with `GRBException`
code 3 surfaces from the dispatch as the wrapped runtime error. -/
theorem C4_witness :
    callbackDispatch initialCBState Where.mipsol
        (Except.error (Err.grbException 3 "out of memory")) (Except.ok ()) =
      Except.error (wrapGurobiError (Err.grbException 3 "out of memory")) :=
  (C4_callback_error_propagation initialCBState
      (Except.error (Err.grbException 3 "out of memory")) (Except.ok ())
      (Err.grbException 3 "out of memory")).1 rfl

/-- Claim C5, counterexample.  The claim says every constraint addition
validates indices and an out-of-range index fails synchronously with
`ConfigurationError`.  In a one-variable session, adding a constraint over
variable index 5 performs no validation: the source indexes
`gurobiVariables_[5]` directly (an out-of-bounds access, undefined
behavior), and no `ConfigurationError` is raised. -/
theorem C5_counterexample :
    addConstraintRun (addVariables initialGurobi [1]) [5] [1]
        (Flt.fin 0) (Flt.fin 0) =
      Except.error Err.undefinedBehavior ∧
    Err.undefinedBehavior ≠ Err.configurationError :=
  ⟨rfl, by decide⟩

/-- Claim C5 (amended): neither `Gurobi::addConstraint` nor
`Callback::addLazyConstraint` performs any index validation: no call ever
fails with `ConfigurationError`; an addition containing an out-of-range
variable index instead reaches an out-of-bounds access on the
`gurobiVariables_` array (undefined behavior) and emits nothing. -/
theorem C5_no_index_validation : ∀ (s : GurobiState) (vis : List Nat)
    (cs : List ℚ) (lb ub : Flt),
    addConstraintRun s vis cs lb ub ≠ Except.error Err.configurationError ∧
    addLazyConstraintRun s vis cs lb ub ≠ Except.error Err.configurationError ∧
    ((∃ vi ∈ vis, s.varArrayLen ≤ vi) →
      addConstraintRun s vis cs lb ub = Except.error Err.undefinedBehavior ∧
      addLazyConstraintRun s vis cs lb ub = Except.error Err.undefinedBehavior) := by
  intro s vis cs lb ub
  refine ⟨?_, ?_, ?_⟩
  · intro h
    unfold addConstraintRun at h
    cases hb : buildLinExpr s vis cs with
    | error e =>
        simp only [hb] at h
        have he := buildLinExpr_error_eq s vis cs e hb
        have h2 := Except.error.inj h
        rw [h2] at he
        exact absurd he (by decide)
    | ok expr =>
        simp only [hb] at h
        split at h <;> exact Except.noConfusion h
  · intro h
    unfold addLazyConstraintRun at h
    cases hb : buildLinExpr s vis cs with
    | error e =>
        simp only [hb] at h
        have he := buildLinExpr_error_eq s vis cs e hb
        have h2 := Except.error.inj h
        rw [h2] at he
        exact absurd he (by decide)
    | ok expr =>
        simp only [hb] at h
        split at h <;> exact Except.noConfusion h
  · intro hoob
    have hb := buildLinExpr_oob s vis cs hoob
    constructor
    · unfold addConstraintRun
      rw [hb]
    · unfold addLazyConstraintRun
      rw [hb]

/-- Witness for C5: a one-variable session, constraint over index 7 hits
the out-of-bounds access rather than a `ConfigurationError`. -/
theorem C5_witness :
    addConstraintRun (addVariables initialGurobi [1]) [7] [1]
        (Flt.fin 0) (Flt.fin 1) =
      Except.error Err.undefinedBehavior :=
  ((C5_no_index_validation (addVariables initialGurobi [1]) [7] [1]
      (Flt.fin 0) (Flt.fin 1)).2.2 ⟨7, by simp, by decide⟩).1

/-- Claim C6, status code_bug, evaluated at the failing input: two
successive `addVariables` calls, `[1.0]` then `[2.0]`.  The underlying
model does receive both variables (count 2) and the objective is correctly
extended with terms for both, and after a single call index 0 resolves
correctly; but line 289 overwrites `gurobiVariables_` with the array of
only the newly added variables (leaking the old one), so afterwards
wrapper index 0 resolves to the second call's variable (model index 1, not
0), wrapper index 1 — although `nVariables_ = 2` — is an out-of-bounds
access, and the object's own `setStart`, which loops `j < nVariables_`
over that array, runs into undefined behavior. -/
theorem C6_addVariables_overwrite :
    (addVariables (addVariables initialGurobi [1]) [2]).nVariables = 2 ∧
    (addVariables (addVariables initialGurobi [1]) [2]).model.numVars = 2 ∧
    (addVariables (addVariables initialGurobi [1]) [2]).objectiveTerms =
      [(0, 1), (1, 2)] ∧
    modelVarOf (addVariables initialGurobi [1]) 0 = some 0 ∧
    modelVarOf (addVariables (addVariables initialGurobi [1]) [2]) 0 = some 1 ∧
    modelVarOf (addVariables (addVariables initialGurobi [1]) [2]) 1 = none ∧
    setStartRun (addVariables (addVariables initialGurobi [1]) [2]) [0, 0] =
      Except.error Err.undefinedBehavior :=
  ⟨rfl, rfl, rfl, rfl, rfl, rfl, rfl⟩

/-- Claim C7, counterexample.  The claim says `objective()` called before
any `optimize()` fails with `StateError`.  On a fresh session it fails
with the black-box solver's `GRBException` (data not available), which the
wrapper forwards unwrapped; the wrapper performs no state check and no
`StateError` is raised. -/
theorem C7_counterexample :
    objectiveRun initialGurobi =
      Except.error (Err.grbException 10005 "Unable to retrieve attribute") ∧
    Err.grbException 10005 "Unable to retrieve attribute" ≠ Err.stateError :=
  ⟨rfl, by decide⟩

/-- Claim C7 (amended): the post-solve accessors `objective()`, `bound()`,
`gap()` and `label()` perform no pre-solve state check of their own and
can never fail with a wrapper `StateError`; called before a successful
`optimize()` (the respective solver attribute unavailable) each fails with
the solver's own `GRBException` propagating through the wrapper. -/
theorem C7_accessor_no_state_check : ∀ (s : GurobiState) (j : Nat),
    objectiveRun s ≠ Except.error Err.stateError ∧
    boundRun s ≠ Except.error Err.stateError ∧
    gapRun s ≠ Except.error Err.stateError ∧
    labelRun s j ≠ Except.error Err.stateError ∧
    (s.model.objVal = none →
      objectiveRun s =
        Except.error (Err.grbException 10005 "Unable to retrieve attribute") ∧
      gapRun s =
        Except.error (Err.grbException 10005 "Unable to retrieve attribute")) ∧
    (s.model.objBound = none →
      boundRun s =
        Except.error (Err.grbException 10005 "Unable to retrieve attribute")) ∧
    (s.model.xVals = none → j < s.varArrayLen →
      labelRun s j =
        Except.error (Err.grbException 10005 "Unable to retrieve attribute")) := by
  intro s j
  refine ⟨?_, ?_, ?_, ?_, ?_, ?_, ?_⟩
  · cases ho : s.model.objVal with
    | none => rw [objectiveRun_none ho]; simp
    | some o => rw [objectiveRun_some ho]; simp
  · cases hb : s.model.objBound with
    | none => rw [boundRun_none hb]; simp
    | some b => rw [boundRun_some hb]; simp
  · unfold gapRun
    cases ho : s.model.objVal with
    | none => rw [objectiveRun_none ho]; simp
    | some o =>
        rw [objectiveRun_some ho]
        cases hb : s.model.objBound with
        | none => rw [boundRun_none hb]; simp
        | some b => rw [boundRun_some hb]; simp
  · intro h
    unfold labelRun at h
    split at h
    · unfold grbGetX at h
      split at h
      · split at h
        · exact Except.noConfusion h
        · exact absurd (Except.error.inj h) (by decide)
      · exact absurd (Except.error.inj h) (by decide)
    · exact absurd (Except.error.inj h) (by decide)
  · intro ho
    have h1 := objectiveRun_none ho
    refine ⟨h1, ?_⟩
    unfold gapRun
    rw [h1]
  · intro hb
    exact boundRun_none hb
  · intro hx hj
    have hm : modelVarOf s j = some (s.varArrayFirst + j) := by
      unfold modelVarOf
      rw [if_pos hj]
    unfold labelRun
    rw [hm]
    unfold grbGetX
    rw [hx]

/-- Witness for C7: on a fresh session, `gap()` fails with the propagated
solver exception. -/
theorem C7_witness :
    gapRun initialGurobi =
      Except.error (Err.grbException 10005 "Unable to retrieve attribute") :=
  ((C7_accessor_no_state_check initialGurobi 0).2.2.2.2.1 rfl).2

/-- Claim C8, counterexample.  The claim says `setStart` fails with
`ConfigurationError` whenever the supplied length differs from the
variable count.  In a two-variable session, supplying three values (a
length mismatch) succeeds: the loop reads exactly `nVariables_` values and
silently ignores the rest, and no `ConfigurationError` exists in the
source. -/
theorem C8_counterexample :
    setStartRun (addVariables initialGurobi [1, 1]) [1, 0, 1] =
      Except.ok [(0, 1), (1, 0)] ∧
    List.length [(1 : ℚ), 0, 1] ≠
      (addVariables initialGurobi [1, 1]).nVariables :=
  ⟨rfl, by decide⟩

/-- Claim C8 (amended): `setStart` takes only an iterator and cannot
observe the supplied sequence's length; it reads exactly `nVariables_`
values in index order, assigning them as warm-start values.  No length
validation occurs and no `ConfigurationError` is ever raised: extra values
are silently ignored, and a sequence shorter than the variable count makes
the loop read past its end (undefined behavior). -/
theorem C8_setStart_no_length_check : ∀ (s : GurobiState) (values : List ℚ),
    setStartRun s values ≠ Except.error Err.configurationError ∧
    (s.varArrayLen = s.nVariables → s.nVariables ≤ values.length →
      setStartRun s values =
        Except.ok ((List.range' 0 s.nVariables).map
          fun i => (s.varArrayFirst + i, (values.get? i).getD 0))) ∧
    (values.length < s.nVariables →
      setStartRun s values = Except.error Err.undefinedBehavior) := by
  intro s values
  refine ⟨?_, ?_, ?_⟩
  · intro h
    have he := setStartAux_error_eq s values s.nVariables 0 Err.configurationError h
    exact absurd he (by decide)
  · intro h1 h2
    exact setStartAux_ok s values s.nVariables 0 (by omega) (by omega)
  · intro h
    exact setStartAux_short s values s.nVariables 0 (by omega) (by omega)

/-- Witness for C8: a two-variable session with a matching-length value
sequence performs the two writes in index order. -/
theorem C8_witness :
    setStartRun (addVariables initialGurobi [1, 1]) [5, 7] =
      Except.ok [(0, 5), (1, 7)] :=
  (C8_setStart_no_length_check (addVariables initialGurobi [1, 1]) [5, 7]).2.1
    rfl (by decide)

/-- Claim C9: after a successful `optimize()` (both attributes available),
`gap()` returns `(objective - bound) / (1 + |objective|)` computed from
the very values `objective()` and `bound()` expose. -/
theorem C9_gap_formula : ∀ (s : GurobiState) (o b : ℚ),
    s.model.objVal = some o → s.model.objBound = some b →
    objectiveRun s = Except.ok o ∧ boundRun s = Except.ok b ∧
    gapRun s = Except.ok ((o - b) / (1 + |o|)) := by
  intro s o b ho hb
  have h1 : objectiveRun s = Except.ok o := objectiveRun_some ho
  have h2 : boundRun s = Except.ok b := boundRun_some hb
  refine ⟨h1, h2, ?_⟩
  unfold gapRun
  rw [h1, h2]

/-- Witness for C9: a solved session with objective 3 and bound 2 has gap
`(3 - 2) / (1 + |3|)`. -/
theorem C9_witness :
    gapRun solvedSessionExample = Except.ok ((3 - 2) / (1 + |(3 : ℚ)|)) :=
  (C9_gap_formula solvedSessionExample 3 2 rfl rfl).2.2

/-- Claim C10: `setPreSolver` with `PRE_SOLVER_NONE` writes only
`Presolve = 0` and returns early, never touching the `PrePasses` knob (the
`passes` argument has no effect); for every other choice it writes
`PreDual` and then always writes `PrePasses` to the given pass count,
whose declared default argument is -1. -/
theorem C10_setPreSolver_frame : ∀ (ps : PreSolver) (p : Int),
    setPreSolverWrites PreSolver.PRE_SOLVER_NONE p =
      [(GRBIntParam.presolveParam, 0)] ∧
    (∀ v : Int,
      (GRBIntParam.prePassesParam, v) ∉
        setPreSolverWrites PreSolver.PRE_SOLVER_NONE p) ∧
    (ps ≠ PreSolver.PRE_SOLVER_NONE →
      (GRBIntParam.prePassesParam, p) ∈ setPreSolverWrites ps p ∧
      ∃ v : Int, setPreSolverWrites ps p =
        [(GRBIntParam.preDualParam, v), (GRBIntParam.prePassesParam, p)]) ∧
    setPreSolverDefaultPasses = -1 := by
  intro ps p
  refine ⟨rfl, ?_, ?_, rfl⟩
  · intro v hv
    simp [setPreSolverWrites] at hv
  · intro hne
    cases ps with
    | PRE_SOLVER_NONE => exact absurd rfl hne
    | PRE_SOLVER_AUTO => exact ⟨by simp [setPreSolverWrites], ⟨-1, rfl⟩⟩
    | PRE_SOLVER_PRIMAL => exact ⟨by simp [setPreSolverWrites], ⟨0, rfl⟩⟩
    | PRE_SOLVER_DUAL => exact ⟨by simp [setPreSolverWrites], ⟨1, rfl⟩⟩

/-- Witness for C10: choosing the automatic presolver with 7 passes does
write the pass-count knob. -/
theorem C10_witness :
    (GRBIntParam.prePassesParam, (7 : Int)) ∈
      setPreSolverWrites PreSolver.PRE_SOLVER_AUTO 7 :=
  ((C10_setPreSolver_frame PreSolver.PRE_SOLVER_AUTO 7).2.2.1 (by decide)).1

end GurobiIlp
